import Mathlib

/-!
Verification of the NFC pilgrim check-in core: a shallow embedding of the
scan-to-status-transition workflow from `src/store/index.ts`,
`src/services/pocketbase/index.ts` and `src/services/nfc/index.ts`.

External effects (the NFC hardware and the remote PocketBase collection) are
modelled by passing their outcomes as explicit parameters; every store action
becomes a pure state-transition function that additionally returns the calls
it issued to the collaborators (a `Trace`).
-/

namespace NfcApp

/-- A pilgrim's persisted status field: `'onboard' | 'offboard'`. -/
inductive Status where
  | onboard
  | offboard
deriving DecidableEq, Repr

/-- The store's `scanningMode` field: `'idle' | 'onboard' | 'offboard'`. -/
inductive Mode where
  | idle
  | onboard
  | offboard
deriving DecidableEq, Repr

/-- The injection of the binary session mode parameter (TS type
`'onboard' | 'offboard'`) into the `scanningMode` value space. -/
def Mode.ofStatus : Status → Mode
  | .onboard => .onboard
  | .offboard => .offboard

/-- The fields of a `Pilgrim` record relevant to the check-in core
(`src/types`): identity, card identifier and the two-valued status. -/
structure Pilgrim where
  id : String
  full_name : String
  nfc_card_id : String
  seat_number : Nat
  status : Status
deriving DecidableEq, Repr

/-- `SessionStats` from `src/types`: per-session counters plus the optional
start/end timestamps. -/
structure SessionStats where
  totalScanned : Nat
  successfulScans : Nat
  failedScans : Nat
  onboardCount : Nat
  offboardCount : Nat
  startTime : Option Nat
  endTime : Option Nat
deriving DecidableEq, Repr

/-- `NFCScanResult` from `src/types`: outcome of one hardware scan attempt. -/
structure NFCScanResult where
  success : Bool
  cardId : Option String
  error : Option String
  timestamp : Nat
deriving DecidableEq, Repr

/-- The `nfc` sub-state of the store. -/
structure NFCState where
  isEnabled : Bool
  isScanning : Bool
  lastScanResult : Option NFCScanResult
deriving DecidableEq, Repr

/-- The store state (`AppState` plus the session fields kept by the store). -/
structure AppState where
  pilgrims : List Pilgrim
  isLoading : Bool
  error : Option String
  nfc : NFCState
  selectedPilgrim : Option Pilgrim
  scanningMode : Mode
  sessionStats : SessionStats
deriving DecidableEq, Repr

/-- `initialState` from `src/store/index.ts`. -/
def initialState : AppState :=
  { pilgrims := []
    isLoading := false
    error := none
    nfc := { isEnabled := false, isScanning := false, lastScanResult := none }
    selectedPilgrim := none
    scanningMode := .idle
    sessionStats :=
      { totalScanned := 0, successfulScans := 0, failedScans := 0
        onboardCount := 0, offboardCount := 0
        startTime := none, endTime := none } }

/-- JS `s || d` on a string: the default is taken when `s` is empty. -/
def jsOrStr (s d : String) : String := if s = "" then d else s

/-- JS `s || d` where `s` may be `undefined`. -/
def jsOrOpt (s : Option String) (d : String) : String :=
  match s with
  | some m => jsOrStr m d
  | none => d

/-- JS truthiness of a `string | undefined` value. -/
def truthyStr (s : Option String) : Bool :=
  match s with
  | some m => m ≠ ""
  | none => false

/-- JS truthiness of a `number | undefined` value. -/
def truthyNat (n : Option Nat) : Bool :=
  match n with
  | some m => m ≠ 0
  | none => false

/-- `pat` occurs at the head of `l`. -/
def headMatches : List Char → List Char → Bool
  | [], _ => true
  | _ :: _, [] => false
  | p :: ps, c :: cs => p = c && headMatches ps cs

/-- `pat` occurs somewhere in `l` (JS `String.includes`). -/
def hasSub (pat : List Char) : List Char → Bool
  | [] => pat.isEmpty
  | c :: cs => headMatches pat (c :: cs) || hasSub pat cs

/-- JS `s.includes(pat)`. -/
def containsStr (s pat : String) : Bool := hasSub pat.data s.data

/-! ## PocketBase service (`src/services/pocketbase/index.ts`) -/

/-- A raw error thrown by the PocketBase SDK: optional HTTP status and
optional message. -/
structure RawError where
  status : Option Nat
  message : Option String
deriving DecidableEq, Repr

/-- The normalized `PocketBaseError` produced by `handleError`. -/
structure PBError where
  code : Nat
  message : String
deriving DecidableEq, Repr

/-- `isNotFoundError`: the raw error carries HTTP status 404. -/
def isNotFoundError (e : RawError) : Bool := e.status = some 404

/-- `handleError`: normalize a raw SDK error into a `PocketBaseError`. -/
def handleError (e : RawError) : PBError :=
  match e.status with
  | some s => { code := s, message := jsOrOpt e.message "An error occurred" }
  | none => { code := 0, message := jsOrOpt e.message "Network error occurred" }

/-- The backend response to `getFirstListItem` with filter
`nfc_card_id="cardId"` over the remote collection `db`: the first matching
record, else a 404 error (PocketBase raises 404 when no item matches). -/
def firstByNfcId (db : List Pilgrim) (cardId : String) : Except RawError Pilgrim :=
  match db.find? (fun p => p.nfc_card_id = cardId) with
  | some p => .ok p
  | none => .error { status := some 404, message := some "The requested resource wasn't found." }

/-- `getPilgrimByNfcId`, as a function of the backend response: a 404 is
returned as `none`, any other error is rethrown normalized. -/
def getPilgrimByNfcId (resp : Except RawError Pilgrim) : Except PBError (Option Pilgrim) :=
  match resp with
  | .ok p => .ok (some p)
  | .error e => if isNotFoundError e then .ok none else .error (handleError e)

/-- `pocketbaseService.updatePilgrimStatus`, as a function of the backend
response: success passes the updated record through, errors are normalized. -/
def pbUpdatePilgrimStatus (resp : Except RawError Pilgrim) : Except PBError Pilgrim :=
  match resp with
  | .ok p => .ok p
  | .error e => .error (handleError e)

/-! ## Call traces

Each store action also returns the calls it issued to the collaborators, so
that "never calls persist" style properties can be stated. -/

/-- External calls issued during one store action. -/
structure Trace where
  lookups : List String
  persistCalls : List (String × Mode)
  nfcScanCalls : Nat
  nfcCancelCalls : Nat
deriving DecidableEq, Repr

/-- The empty trace. -/
def Trace.empty : Trace :=
  { lookups := [], persistCalls := [], nfcScanCalls := 0, nfcCancelCalls := 0 }

/-! ## Store actions (`src/store/index.ts`) -/

/-- The store's `mapErrorMessage` table. -/
def mapErrorMessage (errorCode : String) : String :=
  if errorCode = "PILGRIM_NOT_FOUND" then "لم يتم العثور على الحاج"
  else if errorCode = "ALREADY_ONBOARD" then "الحاج على متن الحافلة بالفعل"
  else if errorCode = "ALREADY_OFFBOARD" then "الحاج خارج الحافلة بالفعل"
  else if errorCode = "NFC_NOT_SUPPORTED" then "الجهاز لا يدعم NFC"
  else if errorCode = "NFC_DISABLED" then "NFC غير مفعل"
  else if errorCode = "SCAN_TIMEOUT" then "انتهت مهلة المسح"
  else if errorCode = "INVALID_CARD" then "رقاقة غير صالحة"
  else if errorCode = "NETWORK_ERROR" then "خطأ في الاتصال بالشبكة"
  else if errorCode = "SERVER_ERROR" then "خطأ في الخادم"
  else "خطأ غير معروف"

/-- The in-place list update performed by `updatePilgrimStatus` on success:
`findIndex` then overwrite when found. -/
def updPilgrims (ps : List Pilgrim) (pilgrimId : String) (updated : Pilgrim) : List Pilgrim :=
  match ps.findIdx? (fun p => p.id = pilgrimId) with
  | some i => ps.set i updated
  | none => ps

/-- Result of one store action: next state, value/exception, issued calls. -/
structure UpdateOutcome where
  state : AppState
  result : Except PBError Pilgrim
  trace : Trace

/-- `updatePilgrimStatus` store action. The declared TS type of `status` is
`'onboard' | 'offboard'`, but the value reaching it at runtime comes from an
unchecked cast of `scanningMode`, so it ranges over `Mode`. The persist
outcome (the backend response) is the `persistResp` parameter. -/
def updatePilgrimStatus (pilgrimId : String) (status : Mode)
    (persistResp : Except RawError Pilgrim) (s : AppState) : UpdateOutcome :=
  match pbUpdatePilgrimStatus persistResp with
  | .ok updatedPilgrim =>
      { state :=
          { s with
            pilgrims := updPilgrims s.pilgrims pilgrimId updatedPilgrim
            sessionStats :=
              { s.sessionStats with
                onboardCount :=
                  if status = .onboard then s.sessionStats.onboardCount + 1
                  else s.sessionStats.onboardCount
                offboardCount :=
                  if status = .onboard then s.sessionStats.offboardCount
                  else s.sessionStats.offboardCount + 1
                successfulScans := s.sessionStats.successfulScans + 1
                totalScanned := s.sessionStats.totalScanned + 1 } }
        result := .ok updatedPilgrim
        trace := { Trace.empty with persistCalls := [(pilgrimId, status)] } }
  | .error e =>
      { state :=
          { s with
            error := some (jsOrStr e.message "Failed to update pilgrim status")
            sessionStats :=
              { s.sessionStats with
                failedScans := s.sessionStats.failedScans + 1
                totalScanned := s.sessionStats.totalScanned + 1 } }
        result := .error e
        trace := { Trace.empty with persistCalls := [(pilgrimId, status)] } }

/-- The catch block of `processScan`: map the error code, record it, and
count one failed attempt. -/
def scanFailState (msg : String) (s : AppState) : AppState :=
  { s with
    error := some (mapErrorMessage msg)
    sessionStats :=
      { s.sessionStats with
        failedScans := s.sessionStats.failedScans + 1
        totalScanned := s.sessionStats.totalScanned + 1 } }

/-- Result of `processScan`: next state, `()` or the rethrown error's
message, issued calls. -/
structure ScanOutcome where
  state : AppState
  result : Except String Unit
  trace : Trace

/-- `processScan` store action. `lookupResp` is the backend response to the
card-id lookup, `persistResp` the backend response to the persist call (used
only when that call is reached). -/
def processScan (cardId : String) (lookupResp persistResp : Except RawError Pilgrim)
    (s : AppState) : ScanOutcome :=
  let tr0 : Trace := { Trace.empty with lookups := [cardId] }
  match getPilgrimByNfcId lookupResp with
  | .error e =>
      { state := scanFailState e.message s, result := .error e.message, trace := tr0 }
  | .ok none =>
      { state := scanFailState "PILGRIM_NOT_FOUND" s
        result := .error "PILGRIM_NOT_FOUND", trace := tr0 }
  | .ok (some pilgrim) =>
      let newStatus := s.scanningMode
      if newStatus = .onboard ∧ pilgrim.status = .onboard then
        { state := scanFailState "ALREADY_ONBOARD" s
          result := .error "ALREADY_ONBOARD", trace := tr0 }
      else if newStatus = .offboard ∧ pilgrim.status = .offboard then
        { state := scanFailState "ALREADY_OFFBOARD" s
          result := .error "ALREADY_OFFBOARD", trace := tr0 }
      else
        let u := updatePilgrimStatus pilgrim.id newStatus persistResp s
        let tr := { tr0 with persistCalls := u.trace.persistCalls }
        match u.result with
        | .ok _ =>
            { state := { u.state with selectedPilgrim := some pilgrim }
              result := .ok (), trace := tr }
        | .error e =>
            { state := scanFailState e.message u.state
              result := .error e.message, trace := tr }

/-- Result of `startScanning`: next state and issued calls (it catches every
error itself). -/
structure StartScanOutcome where
  state : AppState
  trace : Trace

/-- `startScanning` store action. `scanResult` is the value returned by
`nfcService.startScanning()` (that service catches everything, so it returns
rather than throws). -/
def startScanning (mode : Status) (scanResult : NFCScanResult)
    (lookupResp persistResp : Except RawError Pilgrim) (s : AppState) : StartScanOutcome :=
  let s1 :=
    { s with
      scanningMode := Mode.ofStatus mode
      nfc := { s.nfc with isScanning := true }
      error := none }
  let s2 :=
    { s1 with nfc := { s1.nfc with lastScanResult := some scanResult, isScanning := false } }
  if scanResult.success && truthyStr scanResult.cardId then
    let ps := processScan (scanResult.cardId.getD "") lookupResp persistResp s2
    match ps.result with
    | .ok _ =>
        { state := ps.state
          trace := { ps.trace with nfcScanCalls := ps.trace.nfcScanCalls + 1 } }
    | .error msg =>
        { state :=
            { ps.state with
              nfc := { ps.state.nfc with isScanning := false }
              error := some (jsOrStr msg "Scanning failed")
              sessionStats :=
                { ps.state.sessionStats with
                  failedScans := ps.state.sessionStats.failedScans + 1
                  totalScanned := ps.state.sessionStats.totalScanned + 1 } }
          trace := { ps.trace with nfcScanCalls := ps.trace.nfcScanCalls + 1 } }
  else
    let msg := jsOrStr (jsOrOpt scanResult.error "Scan failed") "Scanning failed"
    { state :=
        { s2 with
          nfc := { s2.nfc with isScanning := false }
          error := some msg
          sessionStats :=
            { s2.sessionStats with
              failedScans := s2.sessionStats.failedScans + 1
              totalScanned := s2.sessionStats.totalScanned + 1 } }
      trace := { Trace.empty with nfcScanCalls := 1 } }

/-- `stopScanning` store action: cancel the reader (one adapter cancel call)
and drop back to idle. -/
def stopScanning (s : AppState) : AppState × Trace :=
  ({ s with
     nfc := { s.nfc with isScanning := false }
     scanningMode := .idle },
   { Trace.empty with nfcCancelCalls := 1 })

/-- `startSession` store action: fix the mode and reset the statistics with
a fresh `startTime`. -/
def startSession (mode : Status) (now : Nat) (s : AppState) : AppState :=
  { s with
    scanningMode := Mode.ofStatus mode
    sessionStats :=
      { totalScanned := 0, successfulScans := 0, failedScans := 0
        onboardCount := 0, offboardCount := 0
        startTime := some now, endTime := none } }

/-- `endSession` store action: back to idle, stamp `endTime`, clear the
scanning flag. It makes no call to the NFC service (empty trace). -/
def endSession (now : Nat) (s : AppState) : AppState × Trace :=
  ({ s with
     scanningMode := .idle
     sessionStats := { s.sessionStats with endTime := some now }
     nfc := { s.nfc with isScanning := false } },
   Trace.empty)

/-- `resetSession` store action. -/
def resetSession (s : AppState) : AppState :=
  { s with
    sessionStats :=
      { totalScanned := 0, successfulScans := 0, failedScans := 0
        onboardCount := 0, offboardCount := 0
        startTime := none, endTime := none }
    scanningMode := .idle
    nfc := { s.nfc with isScanning := false }
    selectedPilgrim := none }

/-! ## Operation sequences -/

/-- One store operation together with the outcomes of the external calls it
may issue. -/
inductive Op where
  | sessionStart (mode : Status) (now : Nat)
  | scanStart (mode : Status) (scanResult : NFCScanResult)
      (lookupResp persistResp : Except RawError Pilgrim)
  | scanProcess (cardId : String) (lookupResp persistResp : Except RawError Pilgrim)
  | statusUpdate (pilgrimId : String) (status : Mode) (persistResp : Except RawError Pilgrim)
  | sessionEnd (now : Nat)
  | sessionReset
  | scanStop

/-- Apply one store operation to the state. -/
def step (s : AppState) : Op → AppState
  | .sessionStart mode now => startSession mode now s
  | .scanStart mode r lk pr => (startScanning mode r lk pr s).state
  | .scanProcess cid lk pr => (processScan cid lk pr s).state
  | .statusUpdate pid st pr => (updatePilgrimStatus pid st pr s).state
  | .sessionEnd now => (endSession now s).1
  | .sessionReset => resetSession s
  | .scanStop => (stopScanning s).1

/-- Run a sequence of store operations. -/
def run (s : AppState) (ops : List Op) : AppState := ops.foldl step s

/-- The session-statistics invariant: `total == successful + failed`. -/
def statsInv (st : SessionStats) : Prop :=
  st.totalScanned = st.successfulScans + st.failedScans

/-! ## NFC service (`src/services/nfc/index.ts`) -/

/-- One record of an NDEF message, as inspected by `readNdefData`. -/
structure NdefRecord where
  payload : Option (List Nat)
deriving DecidableEq, Repr

/-- The tag object returned by `NfcManager.getTag()`, reduced to the fields
`extractCardId` and `readNdefData` inspect. -/
structure TagInfo where
  id : Option (List Nat)
  uid : Option (List Nat)
  serialNumber : Option String
  ndefMessage : List NdefRecord
  maxSize : Option Nat
  type : Option String
deriving DecidableEq, Repr

/-- JS `byte.toString(16).padStart(2, '0')`. -/
def hexByte (b : Nat) : String :=
  let h := (Nat.toDigits 16 b).asString
  if h.length < 2 then "0" ++ h else h

/-- `bytesToHex`: hex-encode and uppercase a byte array. -/
def bytesToHex (bytes : List Nat) : String :=
  ((bytes.map hexByte).foldl (fun a b => a ++ b) "").toUpper

/-- JS `String.fromCharCode.apply(null, codes)`. -/
def fromCharCodes (codes : List Nat) : String :=
  String.mk (codes.map Char.ofNat)

/-- `readNdefData` on a tag: the text of the first NDEF record's payload,
when one exists. -/
def readNdefData (tag : TagInfo) : Option String :=
  match tag.ndefMessage with
  | record :: _ =>
      match record.payload with
      | some payload => some (fromCharCodes payload)
      | none => none
  | [] => none

/-- `extractCardId`: try the tag id, the uid, the serial number, the NDEF
payload, then a synthetic identifier, in that order. `now` stands for
`Date.now()` in the synthetic fallback. -/
def extractCardId (tag : TagInfo) (now : Nat) : Option String :=
  let synthetic : Option String :=
    if truthyNat tag.maxSize || truthyStr tag.type then
      some (jsOrOpt tag.type "unknown" ++ "_" ++
        (if truthyNat tag.maxSize then toString (tag.maxSize.getD 0) else toString now))
    else none
  match tag.id with
  | some bytes => some (bytesToHex bytes)
  | none =>
      match tag.uid with
      | some bytes => some (bytesToHex bytes)
      | none =>
          if truthyStr tag.serialNumber then tag.serialNumber
          else
            match readNdefData tag with
            | some s => if s ≠ "" then some s else synthetic
            | none => synthetic

/-- `mapErrorToMessage`: classify an error by substring matching on its
message, in the source's order. -/
def mapErrorToMessage (errorMessage : String) : String :=
  if containsStr errorMessage "NFC_NOT_SUPPORTED" then "NFC_NOT_SUPPORTED"
  else if containsStr errorMessage "NFC_DISABLED" then "NFC_DISABLED"
  else if containsStr errorMessage "SCAN_TIMEOUT" then "SCAN_TIMEOUT"
  else if containsStr errorMessage "INVALID_CARD" then "INVALID_CARD"
  else if containsStr errorMessage "cancelled" || containsStr errorMessage "canceled" then
    "SCAN_TIMEOUT"
  else "UNKNOWN_ERROR"

/-- `NFCService.startScanning`, as a function of the environment:
`mgr` - the native module is present; `inited` - the service was already
started; `initOk` - the outcome of `this.initialize()` when invoked;
`enabled` - the outcome of `this.isEnabled()`; `race` - the outcome of
racing `requestTechnology` against the timeout (`.error msg` is a rejection,
in particular `.error "SCAN_TIMEOUT"` when the timeout wins; `.ok b` is a
resolution with a value of truthiness `b`); `getTagResp` - the outcome of
`NfcManager.getTag()`; `ts` - `Date.now()` at result creation. -/
def nfcStartScanning (mgr inited initOk enabled : Bool)
    (race : Except String Bool) (getTagResp : Except String TagInfo)
    (now ts : Nat) : NFCScanResult :=
  let body : Except String String :=
    if !mgr then .error "NFC_NOT_AVAILABLE_IN_EXPO_GO"
    else if !inited && !initOk then .error "NFC_NOT_SUPPORTED"
    else if !enabled then .error "NFC_DISABLED"
    else
      match race with
      | .error msg => .error msg
      | .ok tagTruthy =>
          if !tagTruthy then .error "SCAN_TIMEOUT"
          else
            match getTagResp with
            | .error msg => .error msg
            | .ok tag =>
                let cid := extractCardId tag now
                if truthyStr cid then .ok (cid.getD "") else .error "INVALID_CARD"
  match body with
  | .ok cid => { success := true, cardId := some cid, error := none, timestamp := ts }
  | .error e =>
      { success := false, cardId := none, error := some (mapErrorToMessage e), timestamp := ts }

/-! ## Invariant preservation lemmas -/

theorem statsInv_scanFailState (msg : String) (s : AppState) (h : statsInv s.sessionStats) :
    statsInv ((scanFailState msg s).sessionStats) := by
  simp only [scanFailState, statsInv] at h ⊢
  omega

theorem statsInv_updatePilgrimStatus (pid : String) (st : Mode)
    (pr : Except RawError Pilgrim) (s : AppState) (h : statsInv s.sessionStats) :
    statsInv ((updatePilgrimStatus pid st pr s).state.sessionStats) := by
  unfold updatePilgrimStatus
  split <;> (simp only [statsInv] at h ⊢; try simp) <;> omega

theorem statsInv_processScan (cid : String) (lk pr : Except RawError Pilgrim)
    (s : AppState) (h : statsInv s.sessionStats) :
    statsInv ((processScan cid lk pr s).state.sessionStats) := by
  unfold processScan
  split
  · exact statsInv_scanFailState _ _ h
  · exact statsInv_scanFailState _ _ h
  · dsimp only
    split
    · exact statsInv_scanFailState _ _ h
    · split
      · exact statsInv_scanFailState _ _ h
      · split
        · exact statsInv_updatePilgrimStatus _ _ _ _ h
        · exact statsInv_scanFailState _ _ (statsInv_updatePilgrimStatus _ _ _ _ h)

theorem statsInv_startScanning (mode : Status) (r : NFCScanResult)
    (lk pr : Except RawError Pilgrim) (s : AppState) (h : statsInv s.sessionStats) :
    statsInv ((startScanning mode r lk pr s).state.sessionStats) := by
  unfold startScanning
  dsimp only
  split
  · split
    · exact statsInv_processScan _ _ _ _ h
    · have hp := statsInv_processScan (r.cardId.getD "")
        lk pr { s with
          scanningMode := Mode.ofStatus mode
          nfc := { s.nfc with isScanning := false, lastScanResult := some r }
          error := none } h
      simp only [statsInv] at hp ⊢
      try simp at hp ⊢
      omega
  · simp only [statsInv] at h ⊢
    try simp
    omega

theorem statsInv_step (s : AppState) (op : Op) (h : statsInv s.sessionStats) :
    statsInv ((step s op).sessionStats) := by
  cases op with
  | sessionStart mode now => simp [step, startSession, statsInv]
  | scanStart mode r lk pr => exact statsInv_startScanning _ _ _ _ _ h
  | scanProcess cid lk pr => exact statsInv_processScan _ _ _ _ h
  | statusUpdate pid st pr => exact statsInv_updatePilgrimStatus _ _ _ _ h
  | sessionEnd now => simpa [step, endSession, statsInv] using h
  | sessionReset => simp [step, resetSession, statsInv]
  | scanStop => simpa [step, stopScanning, statsInv] using h

theorem statsInv_run (ops : List Op) (s : AppState) (h : statsInv s.sessionStats) :
    statsInv ((run s ops).sessionStats) := by
  induction ops generalizing s with
  | nil => exact h
  | cons op rest ih => exact ih (step s op) (statsInv_step s op h)

/-! ## Concrete fixtures -/

/-- Fixture: a pilgrim holding card `A1`, currently onboard. -/
def p1on : Pilgrim :=
  { id := "p1", full_name := "Ahmed", nfc_card_id := "A1", seat_number := 7, status := .onboard }

/-- Fixture: the same pilgrim, currently offboard. -/
def p1off : Pilgrim := { p1on with status := .offboard }

/-- Fixture: a successful hardware scan of card `A1`. -/
def scanA1 : NFCScanResult :=
  { success := true, cardId := some "A1", error := none, timestamp := 100 }

/-- Fixture: a raw network error (no HTTP status on the thrown object). -/
def netErr : RawError := { status := none, message := some "Network error" }

/-! ## Claims -/

/-- C1: for every sequence of scan outcomes processed through the store's
operations (startSession, startScanning, processScan, updatePilgrimStatus,
endSession, resetSession, and also stopScanning), the session statistics
satisfy `totalScanned = successfulScans + failedScans` after every
operation. -/
theorem c1_total_eq_successful_plus_failed (ops : List Op) :
    statsInv ((run initialState ops).sessionStats) :=
  statsInv_run ops initialState rfl

/-- C2 (code bug): a single failed scan cycle driven by the coordinator does
NOT increment `failedScans`/`totalScanned` exactly once. Evaluating the code
at concrete inputs: an already-onboard scan under mode onboard is counted
twice (once by `processScan`'s catch, once more by `startScanning`'s catch
after the rethrow), and a persist failure is counted three times (also by
`updatePilgrimStatus`'s catch). -/
theorem c2_failure_counted_more_than_once :
    ((startScanning .onboard scanA1 (firstByNfcId [p1on] "A1") (.ok p1on)
        (startSession .onboard 0 initialState)).state.sessionStats.failedScans = 2 ∧
     (startScanning .onboard scanA1 (firstByNfcId [p1on] "A1") (.ok p1on)
        (startSession .onboard 0 initialState)).state.sessionStats.totalScanned = 2) ∧
    ((startScanning .onboard scanA1 (firstByNfcId [p1off] "A1") (.error netErr)
        (startSession .onboard 0 initialState)).state.sessionStats.failedScans = 3 ∧
     (startScanning .onboard scanA1 (firstByNfcId [p1off] "A1") (.error netErr)
        (startSession .onboard 0 initialState)).state.sessionStats.totalScanned = 3) := by
  exact ⟨⟨rfl, rfl⟩, ⟨rfl, rfl⟩⟩

/-- C5: after every successful persist of status onboard, `onboardCount`,
`successfulScans` and `totalScanned` each increase by exactly 1 and
`offboardCount` (and `failedScans`) are unchanged; symmetrically for a
successful persist of status offboard. -/
theorem c5_persist_success_deltas (s : AppState) (pid : String) (up up2 : Pilgrim) :
    ((updatePilgrimStatus pid .onboard (.ok up) s).state.sessionStats.onboardCount
        = s.sessionStats.onboardCount + 1 ∧
     (updatePilgrimStatus pid .onboard (.ok up) s).state.sessionStats.successfulScans
        = s.sessionStats.successfulScans + 1 ∧
     (updatePilgrimStatus pid .onboard (.ok up) s).state.sessionStats.totalScanned
        = s.sessionStats.totalScanned + 1 ∧
     (updatePilgrimStatus pid .onboard (.ok up) s).state.sessionStats.offboardCount
        = s.sessionStats.offboardCount ∧
     (updatePilgrimStatus pid .onboard (.ok up) s).state.sessionStats.failedScans
        = s.sessionStats.failedScans) ∧
    ((updatePilgrimStatus pid .offboard (.ok up2) s).state.sessionStats.offboardCount
        = s.sessionStats.offboardCount + 1 ∧
     (updatePilgrimStatus pid .offboard (.ok up2) s).state.sessionStats.successfulScans
        = s.sessionStats.successfulScans + 1 ∧
     (updatePilgrimStatus pid .offboard (.ok up2) s).state.sessionStats.totalScanned
        = s.sessionStats.totalScanned + 1 ∧
     (updatePilgrimStatus pid .offboard (.ok up2) s).state.sessionStats.onboardCount
        = s.sessionStats.onboardCount ∧
     (updatePilgrimStatus pid .offboard (.ok up2) s).state.sessionStats.failedScans
        = s.sessionStats.failedScans) := by
  simp [updatePilgrimStatus, pbUpdatePilgrimStatus]

/-- C6: for every persist failure during `updatePilgrimStatus`,
`failedScans` and `totalScanned` are incremented, the underlying error
message is surfaced in `state.error`, and the in-memory pilgrim records and
selection are left unchanged. -/
theorem c6_persist_failure_no_flip (s : AppState) (pid : String) (st : Mode)
    (e : RawError) (m : String) (hm : e.message = some m) (hne : m ≠ "") :
    (updatePilgrimStatus pid st (.error e) s).state.pilgrims = s.pilgrims ∧
    (updatePilgrimStatus pid st (.error e) s).state.selectedPilgrim = s.selectedPilgrim ∧
    (updatePilgrimStatus pid st (.error e) s).state.error = some m ∧
    (updatePilgrimStatus pid st (.error e) s).state.sessionStats.failedScans
      = s.sessionStats.failedScans + 1 ∧
    (updatePilgrimStatus pid st (.error e) s).state.sessionStats.totalScanned
      = s.sessionStats.totalScanned + 1 ∧
    (updatePilgrimStatus pid st (.error e) s).state.sessionStats.successfulScans
      = s.sessionStats.successfulScans ∧
    (updatePilgrimStatus pid st (.error e) s).state.sessionStats.onboardCount
      = s.sessionStats.onboardCount ∧
    (updatePilgrimStatus pid st (.error e) s).state.sessionStats.offboardCount
      = s.sessionStats.offboardCount ∧
    (updatePilgrimStatus pid st (.error e) s).result = .error (handleError e) := by
  cases hs : e.status <;>
    simp [updatePilgrimStatus, pbUpdatePilgrimStatus, handleError, hs, hm,
      jsOrOpt, jsOrStr, hne]

/-- C6 witness: a concrete network failure leaves the records untouched and
surfaces the message. -/
theorem c6_persist_failure_no_flip_witness :
    (updatePilgrimStatus "p1" .onboard (.error netErr) initialState).state.error
        = some "Network error" ∧
    (updatePilgrimStatus "p1" .onboard (.error netErr) initialState).state.pilgrims = [] := by
  have h := c6_persist_failure_no_flip initialState "p1" .onboard netErr "Network error"
    rfl (by decide)
  exact ⟨h.2.2.1, h.1⟩

/-- Fixture: a state with a scan in flight under mode onboard. -/
def sScan : AppState :=
  { initialState with
    nfc := { initialState.nfc with isScanning := true }
    scanningMode := .onboard }

/-- C7 counterexample: an explicit session end (`endSession`) does NOT
invoke the Card Reader Adapter's cancel operation — its trace contains no
cancel call even when a scan is in flight. -/
theorem c7_counterexample_end_no_cancel :
    (endSession 5 sScan).2.nfcCancelCalls = 0 := rfl

/-- C7 amended: a user-initiated cancel (`stopScanning`) returns the session
to idle, invokes the adapter's cancel exactly once, and changes no counter;
`endSession` returns the mode to idle, stamps `endTime`, clears the scanning
flag and changes no counter, but issues no adapter cancel call itself. -/
theorem c7_cancel_and_end (s : AppState) (now : Nat) :
    ((stopScanning s).1.scanningMode = .idle ∧
     (stopScanning s).1.nfc.isScanning = false ∧
     (stopScanning s).2.nfcCancelCalls = 1 ∧
     (stopScanning s).1.sessionStats = s.sessionStats) ∧
    ((endSession now s).1.scanningMode = .idle ∧
     (endSession now s).1.nfc.isScanning = false ∧
     (endSession now s).1.sessionStats.endTime = some now ∧
     (endSession now s).1.sessionStats.totalScanned = s.sessionStats.totalScanned ∧
     (endSession now s).1.sessionStats.successfulScans = s.sessionStats.successfulScans ∧
     (endSession now s).1.sessionStats.failedScans = s.sessionStats.failedScans ∧
     (endSession now s).1.sessionStats.onboardCount = s.sessionStats.onboardCount ∧
     (endSession now s).1.sessionStats.offboardCount = s.sessionStats.offboardCount ∧
     (endSession now s).2.nfcCancelCalls = 0) := by
  simp [stopScanning, endSession, Trace.empty]

/-- The failure kind `processScan` raises when the pilgrim is already in the
session's target state. -/
def alreadyKind : Status → String
  | .onboard => "ALREADY_ONBOARD"
  | .offboard => "ALREADY_OFFBOARD"

/-- C3: a scan resolving a pilgrim whose status equals the session's
requested mode fails with `ALREADY_ONBOARD`/`ALREADY_OFFBOARD`, increments
`failedScans`/`totalScanned` once, and issues no persist call; two
consecutive such scans each do this and leave the stored records
unchanged. -/
theorem c3_already_in_target_state (s : AppState) (st : Status) (p : Pilgrim)
    (cid : String) (pr pr2 : Except RawError Pilgrim)
    (hmode : s.scanningMode = Mode.ofStatus st) (hstat : p.status = st) :
    (processScan cid (.ok p) pr s).result = .error (alreadyKind st) ∧
    (processScan cid (.ok p) pr s).trace.persistCalls = [] ∧
    (processScan cid (.ok p) pr s).state.sessionStats.failedScans
      = s.sessionStats.failedScans + 1 ∧
    (processScan cid (.ok p) pr s).state.sessionStats.totalScanned
      = s.sessionStats.totalScanned + 1 ∧
    (processScan cid (.ok p) pr s).state.sessionStats.successfulScans
      = s.sessionStats.successfulScans ∧
    (processScan cid (.ok p) pr s).state.pilgrims = s.pilgrims ∧
    (processScan cid (.ok p) pr2 ((processScan cid (.ok p) pr s).state)).result
      = .error (alreadyKind st) ∧
    (processScan cid (.ok p) pr2 ((processScan cid (.ok p) pr s).state)).trace.persistCalls
      = [] ∧
    (processScan cid (.ok p) pr2
        ((processScan cid (.ok p) pr s).state)).state.sessionStats.failedScans
      = s.sessionStats.failedScans + 2 ∧
    (processScan cid (.ok p) pr2
        ((processScan cid (.ok p) pr s).state)).state.sessionStats.totalScanned
      = s.sessionStats.totalScanned + 2 ∧
    (processScan cid (.ok p) pr2
        ((processScan cid (.ok p) pr s).state)).state.sessionStats.successfulScans
      = s.sessionStats.successfulScans ∧
    (processScan cid (.ok p) pr2 ((processScan cid (.ok p) pr s).state)).state.pilgrims
      = s.pilgrims := by
  cases st <;>
    simp [processScan, getPilgrimByNfcId, scanFailState, alreadyKind, hmode, hstat,
      Mode.ofStatus, Trace.empty]

/-- C3 witness: two consecutive scans of the already-onboard `p1on` under
mode onboard. -/
theorem c3_already_in_target_state_witness :
    (processScan "A1" (.ok p1on) (.ok p1on)
      { initialState with scanningMode := .onboard }).result = .error "ALREADY_ONBOARD" ∧
    (processScan "A1" (.ok p1on) (.ok p1on)
      { initialState with scanningMode := .onboard }).trace.persistCalls = [] := by
  have h := c3_already_in_target_state { initialState with scanningMode := .onboard }
    .onboard p1on "A1" (.ok p1on) (.ok p1on) rfl rfl
  exact ⟨h.1, h.2.1⟩

/-- C4: a scan of a card identifier with no matching record fails with
`PILGRIM_NOT_FOUND`, increments `failedScans`/`totalScanned` once, issues no
persist call; and the lookup maps a backend 404 to `none` while rethrowing
every other error normalized. -/
theorem c4_pilgrim_not_found (db : List Pilgrim) (cid : String)
    (pr : Except RawError Pilgrim) (s : AppState)
    (hnone : ∀ p ∈ db, p.nfc_card_id ≠ cid) :
    (processScan cid (firstByNfcId db cid) pr s).result = .error "PILGRIM_NOT_FOUND" ∧
    (processScan cid (firstByNfcId db cid) pr s).trace.persistCalls = [] ∧
    (processScan cid (firstByNfcId db cid) pr s).state.sessionStats.failedScans
      = s.sessionStats.failedScans + 1 ∧
    (processScan cid (firstByNfcId db cid) pr s).state.sessionStats.totalScanned
      = s.sessionStats.totalScanned + 1 ∧
    (processScan cid (firstByNfcId db cid) pr s).state.sessionStats.successfulScans
      = s.sessionStats.successfulScans ∧
    getPilgrimByNfcId (firstByNfcId db cid) = .ok none ∧
    (∀ e : RawError, e.status = some 404 → getPilgrimByNfcId (.error e) = .ok none) ∧
    (∀ e : RawError, e.status ≠ some 404 →
      getPilgrimByNfcId (.error e) = .error (handleError e)) := by
  have hfind : db.find? (fun p => p.nfc_card_id = cid) = none := by
    rw [List.find?_eq_none]
    intro p hp
    simp [hnone p hp]
  simp [processScan, firstByNfcId, hfind, getPilgrimByNfcId, isNotFoundError,
    scanFailState, Trace.empty]

/-- C4 witness: card `B2` matches no record in the one-pilgrim collection. -/
theorem c4_pilgrim_not_found_witness :
    (processScan "B2" (firstByNfcId [p1on] "B2") (.ok p1on) initialState).result
      = .error "PILGRIM_NOT_FOUND" ∧
    (processScan "B2" (firstByNfcId [p1on] "B2") (.ok p1on) initialState).trace.persistCalls
      = [] := by
  have h := c4_pilgrim_not_found [p1on] "B2" (.ok p1on) initialState (by decide)
  exact ⟨h.1, h.2.1⟩

/-- Every persist call issued by `updatePilgrimStatus` carries exactly the
requested id and status. -/
theorem updatePilgrimStatus_trace (pid : String) (st : Mode)
    (pr : Except RawError Pilgrim) (s : AppState) :
    (updatePilgrimStatus pid st pr s).trace
      = { Trace.empty with persistCalls := [(pid, st)] } := by
  unfold updatePilgrimStatus
  split <;> rfl

/-- Every persist call issued by `processScan` carries the state's
`scanningMode` as the status. -/
theorem processScan_persist_status (cid : String) (lk pr : Except RawError Pilgrim)
    (s : AppState) (c : String × Mode)
    (hc : c ∈ (processScan cid lk pr s).trace.persistCalls) :
    c.2 = s.scanningMode := by
  unfold processScan at hc
  dsimp only at hc
  split at hc <;>
    simp only [Trace.empty] at hc <;>
    try simp at hc
  split at hc <;> try simp at hc
  split at hc <;> try simp at hc
  split at hc <;>
    · rw [updatePilgrimStatus_trace] at hc
      simp [Trace.empty] at hc
      simp [hc]

/-- C8: a scan attempt that times out yields
`{success := false, error := SCAN_TIMEOUT}` with no card id, and driving it
through a fresh offboard session ends the cycle with `failedScans = 1`,
`totalScanned = 1` and no Record Store call. -/
theorem c8_timeout_offboard (inited initOk : Bool) (gt : Except String TagInfo)
    (now ts t0 : Nat) (lk pr : Except RawError Pilgrim) (s : AppState)
    (hinit : inited = true ∨ initOk = true) :
    nfcStartScanning true inited initOk true (.error "SCAN_TIMEOUT") gt now ts
      = { success := false, cardId := none, error := some "SCAN_TIMEOUT", timestamp := ts } ∧
    (startScanning .offboard
        (nfcStartScanning true inited initOk true (.error "SCAN_TIMEOUT") gt now ts)
        lk pr (startSession .offboard t0 s)).state.sessionStats.failedScans = 1 ∧
    (startScanning .offboard
        (nfcStartScanning true inited initOk true (.error "SCAN_TIMEOUT") gt now ts)
        lk pr (startSession .offboard t0 s)).state.sessionStats.totalScanned = 1 ∧
    (startScanning .offboard
        (nfcStartScanning true inited initOk true (.error "SCAN_TIMEOUT") gt now ts)
        lk pr (startSession .offboard t0 s)).state.sessionStats.successfulScans = 0 ∧
    (startScanning .offboard
        (nfcStartScanning true inited initOk true (.error "SCAN_TIMEOUT") gt now ts)
        lk pr (startSession .offboard t0 s)).trace.lookups = [] ∧
    (startScanning .offboard
        (nfcStartScanning true inited initOk true (.error "SCAN_TIMEOUT") gt now ts)
        lk pr (startSession .offboard t0 s)).trace.persistCalls = [] := by
  have hr : nfcStartScanning true inited initOk true (.error "SCAN_TIMEOUT") gt now ts
      = { success := false, cardId := none, error := some "SCAN_TIMEOUT", timestamp := ts } := by
    rcases hinit with h | h <;> subst h
    · rfl
    · cases inited <;> rfl
  rw [hr]
  refine ⟨rfl, ?_⟩
  simp [startScanning, startSession, truthyStr, jsOrOpt, jsOrStr, Trace.empty]

/-- C8 witness: the fully concrete timed-out offboard cycle. -/
theorem c8_timeout_offboard_witness :
    (startScanning .offboard
        (nfcStartScanning true true true true (.error "SCAN_TIMEOUT") (.error "x") 0 50)
        (.ok p1on) (.ok p1on)
        (startSession .offboard 0 initialState)).state.sessionStats.failedScans = 1 ∧
    (startScanning .offboard
        (nfcStartScanning true true true true (.error "SCAN_TIMEOUT") (.error "x") 0 50)
        (.ok p1on) (.ok p1on)
        (startSession .offboard 0 initialState)).trace.persistCalls = [] := by
  have h := c8_timeout_offboard true true (.error "x") 0 50 0 (.ok p1on) (.ok p1on)
    initialState (Or.inl rfl)
  exact ⟨h.2.1, h.2.2.2.2.2⟩

/-- C9 counterexample: with `scanningMode = idle` and a resolved pilgrim,
`processScan` does not fail fast: it silently passes the idle value into the
persist path (one persist call with status idle), completes without error,
and counts the cycle in the offboard branch. -/
theorem c9_counterexample_idle_persisted :
    (processScan "A1" (.ok p1on) (.ok p1on)
        { initialState with pilgrims := [p1on] }).trace.persistCalls
      = [("p1", Mode.idle)] ∧
    (processScan "A1" (.ok p1on) (.ok p1on)
        { initialState with pilgrims := [p1on] }).result = .ok () ∧
    (processScan "A1" (.ok p1on) (.ok p1on)
        { initialState with pilgrims := [p1on] }).state.sessionStats.offboardCount = 1 := by
  exact ⟨rfl, rfl, rfl⟩

/-- C9 amended: `processScan` performs no fail-fast check on the session
mode — with `scanningMode = idle` and a resolved pilgrim it always reaches
the persist path, passing the idle value through unchecked (silent
coercion); however, every persist call issued via `startScanning` carries
the binary mode that call just installed, which is never idle, so idle never
reaches the persist path through the coordinator entry point. -/
theorem c9_idle_mode_coerced (s : AppState) (cid : String) (p : Pilgrim)
    (pr : Except RawError Pilgrim) (hmode : s.scanningMode = .idle) :
    (processScan cid (.ok p) pr s).trace.persistCalls = [(p.id, Mode.idle)] ∧
    (∀ (mode : Status) (r : NFCScanResult) (lk pr2 : Except RawError Pilgrim)
       (t : AppState) (c : String × Mode),
       c ∈ (startScanning mode r lk pr2 t).trace.persistCalls →
       c.2 = Mode.ofStatus mode ∧ c.2 ≠ Mode.idle) := by
  constructor
  · have htr := updatePilgrimStatus_trace p.id Mode.idle pr s
    simp [processScan, getPilgrimByNfcId, hmode, Trace.empty]
    split <;> simp [htr, Trace.empty]
  · intro mode r lk pr2 t c hc
    have hcall : c.2 = Mode.ofStatus mode := by
      unfold startScanning at hc
      dsimp only at hc
      split at hc
      · split at hc <;>
          · simp only at hc
            have := processScan_persist_status (r.cardId.getD "") lk pr2
              { t with
                scanningMode := Mode.ofStatus mode
                nfc := { t.nfc with isScanning := false, lastScanResult := some r }
                error := none } c (by simpa using hc)
            simpa using this
      · simp [Trace.empty] at hc
    refine ⟨hcall, ?_⟩
    rw [hcall]
    cases mode <;> simp [Mode.ofStatus]

/-- C9 amended witness: the concrete idle-mode scan issues the coerced
persist call. -/
theorem c9_idle_mode_coerced_witness :
    (processScan "A1" (.ok p1off) (.ok p1on)
        { initialState with pilgrims := [p1off] }).trace.persistCalls
      = [("p1", Mode.idle)] := by
  have h := c9_idle_mode_coerced { initialState with pilgrims := [p1off] }
    "A1" p1off (.ok p1on) rfl
  exact h.1

/-- C10 counterexample: an error message that contains "cancelled" but also
contains an earlier-matched pattern is NOT mapped to `SCAN_TIMEOUT` — the
substring checks run in source order, so `"NFC_DISABLED scan cancelled"`
yields a failure result with kind `NFC_DISABLED`. -/
theorem c10_counterexample_earlier_pattern_wins :
    containsStr "NFC_DISABLED scan cancelled" "cancelled" = true ∧
    (nfcStartScanning true true true true (.error "NFC_DISABLED scan cancelled")
        (.error "x") 0 0).error = some "NFC_DISABLED" ∧
    (nfcStartScanning true true true true (.error "NFC_DISABLED scan cancelled")
        (.error "x") 0 0).error ≠ some "SCAN_TIMEOUT" := by
  refine ⟨rfl, rfl, ?_⟩
  decide

/-- C10 amended: for every error message containing "cancelled" or
"canceled" and containing none of the earlier-checked patterns
`NFC_NOT_SUPPORTED`, `NFC_DISABLED`, `INVALID_CARD`, the classifier yields
`SCAN_TIMEOUT`, and a scan whose hardware call rejects with such a message
returns the failure result `{success := false, error := SCAN_TIMEOUT}` —
indistinguishable from a timeout at the Scan Result interface. -/
theorem c10_cancel_maps_to_timeout (msg : String) (inited initOk : Bool)
    (gt : Except String TagInfo) (now ts : Nat)
    (hcan : containsStr msg "cancelled" = true ∨ containsStr msg "canceled" = true)
    (h1 : containsStr msg "NFC_NOT_SUPPORTED" = false)
    (h2 : containsStr msg "NFC_DISABLED" = false)
    (h3 : containsStr msg "INVALID_CARD" = false)
    (hinit : inited = true ∨ initOk = true) :
    mapErrorToMessage msg = "SCAN_TIMEOUT" ∧
    nfcStartScanning true inited initOk true (.error msg) gt now ts
      = { success := false, cardId := none, error := some "SCAN_TIMEOUT", timestamp := ts } := by
  have hmap : mapErrorToMessage msg = "SCAN_TIMEOUT" := by
    unfold mapErrorToMessage
    by_cases hst : containsStr msg "SCAN_TIMEOUT" = true
    · simp [h1, h2, hst]
    · rcases hcan with hc | hc <;> simp [h1, h2, h3, hst, hc]
  refine ⟨hmap, ?_⟩
  have hbody : ∀ h : (!inited && !initOk) = false,
      nfcStartScanning true inited initOk true (.error msg) gt now ts
        = { success := false, cardId := none, error := some (mapErrorToMessage msg),
            timestamp := ts } := by
    intro h
    unfold nfcStartScanning
    simp [h]
  rw [hbody, hmap]
  rcases hinit with h | h <;> subst h <;> simp

/-- C10 amended witness: the plain rejection message "cancelled". -/
theorem c10_cancel_maps_to_timeout_witness :
    mapErrorToMessage "cancelled" = "SCAN_TIMEOUT" := by
  have h := c10_cancel_maps_to_timeout "cancelled" true true (.error "x") 0 0
    (Or.inl (by decide)) (by decide) (by decide) (by decide) (Or.inl rfl)
  exact h.1

end NfcApp
